import Mathlib

/-!
Verification of the live playback state synchronizer of the spotiftCLI
repository (cmd/spotify/main.go together with internal/player and
internal/display), embedded shallowly.

Durations are modelled in milliseconds as integers: the Go code stores
`time.Duration` values that are always whole multiples of
`time.Millisecond` (event positions/durations arrive in ms and the
ticker adds `time.Second` = 1000 ms), so the scaling is exact.
-/

namespace SpotifyCLI

/-- Track metadata as returned by the go-librespot REST API
(internal/player types, struct `Track`). `duration` is in milliseconds. -/
structure Track where
  uri : String
  name : String
  artistNames : List String
  albumName : String
  albumCover : String
  duration : Int
  deriving DecidableEq

/-- Full playback status returned by GET /status
(internal/player types, struct `Status`). -/
structure Status where
  stopped : Bool
  paused : Bool
  buffering : Bool
  volume : Int
  volumeSteps : Int
  repeatContext : Bool
  repeatTrack : Bool
  shuffleContext : Bool
  track : Option Track
  deriving DecidableEq

/-- Data payload of a "metadata" WebSocket event
(internal/player types, struct `EventMetadata`). -/
structure EventMetadata where
  uri : String
  name : String
  artistNames : List String
  albumName : String
  albumCover : String
  duration : Int
  position : Int
  deriving DecidableEq

/-- Data payload of a "seek" WebSocket event (struct `EventSeek`). -/
structure EventSeek where
  position : Int
  duration : Int
  deriving DecidableEq

/-- Data payload of a "volume" WebSocket event (struct `EventVolume`). -/
structure EventVolume where
  value : Int
  max : Int
  deriving DecidableEq

/-- Data payload of shuffle/repeat toggle events (struct `EventBool`). -/
structure EventBool where
  value : Bool
  deriving DecidableEq

/-- A decoded event payload. In the Go code the payload is raw JSON that
`applyEvent` unmarshals into the struct matching the event type; the
unmarshal either succeeds or fails. Here `some (.metadata d)` models raw
bytes that unmarshal into `EventMetadata`, and so on; a payload that does
not decode as the struct the event type requires is modelled by `none`
(or by a mismatching constructor). -/
inductive EventData where
  | metadata (d : EventMetadata)
  | seek (d : EventSeek)
  | volume (d : EventVolume)
  | boolVal (d : EventBool)
  deriving DecidableEq

/-- A WebSocket event as read by the event loop: a type string plus a
decoded-or-undecodable payload (struct `Event` in internal/player types). -/
structure Event where
  type : String
  data : Option EventData
  deriving DecidableEq

/-- The live playback state (struct `appState` in cmd/spotify/main.go).
`duration` and `progress` are in milliseconds. The Go field `repeat` is a
Lean keyword, so it is named `repeatMode` here; it holds one of
"off", "context", "track". -/
structure AppState where
  trackName : String
  artistNames : String
  albumName : String
  duration : Int
  progress : Int
  isPlaying : Bool
  shuffle : Bool
  repeatMode : String
  volume : Int
  stopped : Bool
  deriving DecidableEq

/-- The state created at startup: `state := &appState{repeat: "off"}` — all
fields are Go zero values except `repeat`. -/
def initialState : AppState :=
  { trackName := "", artistNames := "", albumName := "", duration := 0,
    progress := 0, isPlaying := false, shuffle := false, repeatMode := "off",
    volume := 0, stopped := false }

/-- `joinStrings` from cmd/spotify/main.go: joins strings with ", ". -/
def joinStrings : List String → String
  | [] => ""
  | s :: ss => ss.foldl (fun result x => result ++ ", " ++ x) s

/-- `applyEvent` from cmd/spotify/main.go: updates appState from a
WebSocket event. The Go `switch ev.Type` is the if-chain; each
`json.Unmarshal(ev.Data, &d); err == nil` guard is the inner match (a
payload that fails to unmarshal leaves the state unchanged). -/
def applyEvent (state : AppState) (ev : Event) : AppState :=
  if ev.type = "metadata" then
    match ev.data with
    | some (.metadata d) =>
        { state with trackName := d.name, artistNames := joinStrings d.artistNames,
                     albumName := d.albumName, duration := d.duration,
                     progress := d.position, stopped := false }
    | _ => state
  else if ev.type = "playing" then
    { state with isPlaying := true, stopped := false }
  else if ev.type = "paused" then
    { state with isPlaying := false }
  else if ev.type = "stopped" then
    { state with isPlaying := false, stopped := true }
  else if ev.type = "seek" then
    match ev.data with
    | some (.seek d) =>
        { state with progress := d.position, duration := d.duration }
    | _ => state
  else if ev.type = "volume" then
    match ev.data with
    | some (.volume d) => { state with volume := d.value }
    | _ => state
  else if ev.type = "shuffle_context" then
    match ev.data with
    | some (.boolVal d) => { state with shuffle := d.value }
    | _ => state
  else if ev.type = "repeat_context" then
    match ev.data with
    | some (.boolVal d) =>
        if d.value then { state with repeatMode := "context" }
        else if state.repeatMode = "context" then { state with repeatMode := "off" }
        else state
    | _ => state
  else if ev.type = "repeat_track" then
    match ev.data with
    | some (.boolVal d) =>
        if d.value then { state with repeatMode := "track" }
        else if state.repeatMode = "track" then { state with repeatMode := "off" }
        else state
    | _ => state
  else state

/-- The ticker branch of the main select loop: every second, if
`state.isPlaying && !state.stopped`, add `time.Second` (1000 ms) to
`progress` and clamp it to `duration`. -/
def tickState (state : AppState) : AppState :=
  if state.isPlaying && !state.stopped then
    { state with progress :=
        if state.progress + 1000 > state.duration then state.duration
        else state.progress + 1000 }
  else state

/-- `cycleRepeat` from cmd/spotify/main.go (state mutation only; the
fire-and-forget HTTP requests have no effect on local state). -/
def cycleRepeat (state : AppState) : AppState :=
  if state.repeatMode = "off" then { state with repeatMode := "context" }
  else if state.repeatMode = "context" then { state with repeatMode := "track" }
  else { state with repeatMode := "off" }

/-- `handleKey` from cmd/spotify/main.go, as a function from the raw key
byte sequence and state to the new state plus the quit flag. Byte values:
113 = q, 3 = Ctrl+C, 32 = space, 108 = l, 104 = h, 107 = k, 106 = j,
115 = s, 114 = r, and 27 91 67/68/65/66 are the arrow-key escape
sequences. The outbound `pc.*` requests are fire-and-forget (errors
discarded with `_ =`) and do not touch the state. -/
def handleKey (key : List Nat) (state : AppState) : AppState × Bool :=
  if key = [113] ∨ key = [3] then (state, true)
  else if key = [32] then ({ state with isPlaying := !state.isPlaying }, false)
  else if key = [108] ∨ key = [27, 91, 67] then (state, false)
  else if key = [104] ∨ key = [27, 91, 68] then (state, false)
  else if key = [107] ∨ key = [27, 91, 65] then
    ({ state with volume := min 100 (state.volume + 5) }, false)
  else if key = [106] ∨ key = [27, 91, 66] then
    ({ state with volume := max 0 (state.volume - 5) }, false)
  else if key = [115] then ({ state with shuffle := !state.shuffle }, false)
  else if key = [114] then (cycleRepeat state, false)
  else (state, false)

/-- `applyStatus` from cmd/spotify/main.go: seeds appState from the REST
/status response. Note that it never writes `progress`, and writes the
track-metadata fields only when `s.Track != nil`. -/
def applyStatus (state : AppState) (s : Status) : AppState :=
  let st := { state with
    isPlaying := !s.paused && !s.stopped,
    stopped := s.stopped,
    shuffle := s.shuffleContext,
    volume := s.volume,
    repeatMode :=
      if s.repeatTrack then "track"
      else if s.repeatContext then "context"
      else "off" }
  match s.track with
  | some t =>
      { st with trackName := t.name, artistNames := joinStrings t.artistNames,
                albumName := t.albumName, duration := t.duration }
  | none => st

/-- One item consumed by the main select loop: a WebSocket event, a timer
tick, or a key press. -/
inductive Item where
  | ev (e : Event)
  | tick
  | key (k : List Nat)

/-- One iteration of the main select loop, restricted to its effect on
the state (render and quit handling have no state effect). -/
def step (s : AppState) (it : Item) : AppState :=
  match it with
  | .ev e => applyEvent s e
  | .tick => tickState s
  | .key k => (handleKey k s).1

/-- The seeding phase of `main`: the initial state, with `applyStatus`
applied once when the /status fetch succeeds (`none` models a failed
fetch, which `main` ignores). -/
def seedState : Option Status → AppState
  | some st => applyStatus initialState st
  | none => initialState

/-- The whole `main` state evolution: seed once from /status, then fold
the select loop over the arriving items. `applyStatus` appears only in
the seeding position, mirroring that `main` calls it exactly once,
before the loop. -/
def run (st : Option Status) (items : List Item) : AppState :=
  items.foldl step (seedState st)

/-- `strings.Repeat` from the Go standard library: panics when the count
is negative. The panic is modelled as `none`. -/
def stringRepeat (s : String) (n : Int) : Option String :=
  if n < 0 then none
  else some (String.join (List.replicate n.toNat s))

/-- `CreateProgressBar` from internal/display/display.go. The Go code
computes `percentage := float64(current)/float64(total)` and
`filled := int(float64(width) * percentage)` in float64 and truncates
toward zero; this is modelled by the exact truncated integer division
`Int.tdiv (width * current) total`. The two agree wherever the float
computation is exact — in particular at `current = total`, where the
float quotient is exactly 1.0 and `float64(width) * 1.0` is exactly
`width`, the case all theorems below evaluate. A `none` result models a
`strings.Repeat` panic. -/
def createProgressBar (current total width : Int) : Option String :=
  if total = 0 then stringRepeat "─" width
  else
    let filled0 : Int := Int.tdiv (width * current) total
    let filled1 : Int := if filled0 > width then width else filled0
    let filled : Int := if filled1 < 0 then 0 else filled1
    match stringRepeat "━" filled, stringRepeat "─" (width - filled - 1) with
    | some a, some b => some (a ++ "●" ++ b)
    | _, _ => none

/-- The reader loop of `EventHandler.Start` (internal/player/events.go):
each raw frame either unmarshals into an `Event` (`some ev`) or fails
(`none`), in which case the loop `continue`s with the next frame. The
produced event sequence is therefore the decodable frames in order. -/
def readFrames (frames : List (Option Event)) : List Event :=
  frames.filterMap id

/-- The event type strings the `applyEvent` switch recognizes. -/
def knownEventTypes : List String :=
  ["metadata", "playing", "paused", "stopped", "seek", "volume",
   "shuffle_context", "repeat_context", "repeat_track"]

/-- The event types whose handler unmarshals a payload (the others ignore
`ev.Data` entirely). -/
def payloadEventTypes : List String :=
  ["metadata", "seek", "volume", "shuffle_context", "repeat_context", "repeat_track"]

def ProgressInv (s : AppState) : Prop :=
  0 ≤ s.progress ∧ s.progress ≤ s.duration

def payloadProgressWF : Option EventData → Prop
  | some (.metadata d) => 0 ≤ d.position ∧ d.position ≤ d.duration
  | some (.seek d) => 0 ≤ d.position ∧ d.position ≤ d.duration
  | _ => True

def VolumeInv (s : AppState) : Prop :=
  0 ≤ s.volume ∧ s.volume ≤ 100

def payloadVolumeWF : Option EventData → Prop
  | some (.volume d) => 0 ≤ d.value ∧ d.value ≤ 100
  | _ => True

def itemProgressWF : Item → Prop
  | .ev e => payloadProgressWF e.data
  | _ => True

def statusProgressWF (st : Status) : Prop :=
  ∀ t, st.track = some t → 0 ≤ t.duration

def itemVolumeWF : Item → Prop
  | .ev e => payloadVolumeWF e.data
  | _ => True

def statusVolumeWF (st : Status) : Prop :=
  0 ≤ st.volume ∧ st.volume ≤ 100

def establishedState : AppState :=
  { trackName := "Track A", artistNames := "Artist A", albumName := "Album A",
    duration := 200000, progress := 5000, isPlaying := true, shuffle := false,
    repeatMode := "off", volume := 50, stopped := false }

def lateTrack : Track :=
  { uri := "spotify:track:b", name := "Track B", artistNames := ["Artist B"],
    albumName := "Album B", albumCover := "", duration := 100000 }

def lateStatus : Status :=
  { stopped := false, paused := true, buffering := false, volume := 20,
    volumeSteps := 64, repeatContext := false, repeatTrack := false,
    shuffleContext := false, track := some lateTrack }

def repeatCtxEv (b : Bool) : Event := ⟨"repeat_context", some (.boolVal ⟨b⟩)⟩

def repeatTrkEv (b : Bool) : Event := ⟨"repeat_track", some (.boolVal ⟨b⟩)⟩

def seekEv (p d : Int) : Event := ⟨"seek", some (.seek ⟨p, d⟩)⟩

def playingState : AppState :=
  { initialState with isPlaying := true, duration := 5000, progress := 4500 }

theorem applyEvent_metadata (s : AppState) (d : EventMetadata) :
    applyEvent s ⟨"metadata", some (.metadata d)⟩ =
      { s with trackName := d.name, artistNames := joinStrings d.artistNames,
               albumName := d.albumName, duration := d.duration,
               progress := d.position, stopped := false } := rfl

theorem applyEvent_playing (s : AppState) (d : Option EventData) :
    applyEvent s ⟨"playing", d⟩ = { s with isPlaying := true, stopped := false } := rfl

theorem applyEvent_paused (s : AppState) (d : Option EventData) :
    applyEvent s ⟨"paused", d⟩ = { s with isPlaying := false } := rfl

theorem applyEvent_stoppedEv (s : AppState) (d : Option EventData) :
    applyEvent s ⟨"stopped", d⟩ = { s with isPlaying := false, stopped := true } := rfl

theorem applyEvent_seek (s : AppState) (d : EventSeek) :
    applyEvent s ⟨"seek", some (.seek d)⟩ =
      { s with progress := d.position, duration := d.duration } := rfl

theorem applyEvent_volume (s : AppState) (d : EventVolume) :
    applyEvent s ⟨"volume", some (.volume d)⟩ = { s with volume := d.value } := rfl

theorem applyEvent_shuffle (s : AppState) (d : EventBool) :
    applyEvent s ⟨"shuffle_context", some (.boolVal d)⟩ =
      { s with shuffle := d.value } := rfl

theorem applyEvent_repeatCtx (s : AppState) (b : Bool) :
    applyEvent s ⟨"repeat_context", some (.boolVal ⟨b⟩)⟩ =
      if b then { s with repeatMode := "context" }
      else if s.repeatMode = "context" then { s with repeatMode := "off" }
      else s := rfl

theorem applyEvent_repeatTrk (s : AppState) (b : Bool) :
    applyEvent s ⟨"repeat_track", some (.boolVal ⟨b⟩)⟩ =
      if b then { s with repeatMode := "track" }
      else if s.repeatMode = "track" then { s with repeatMode := "off" }
      else s := rfl

theorem applyEvent_unknownType (s : AppState) (t : String) (d : Option EventData)
    (h : t ∉ knownEventTypes) : applyEvent s ⟨t, d⟩ = s := by
  simp only [knownEventTypes, List.mem_cons, List.not_mem_nil, or_false] at h
  push_neg at h
  obtain ⟨h1, h2, h3, h4, h5, h6, h7, h8, h9⟩ := h
  simp only [applyEvent]
  rw [if_neg h1, if_neg h2, if_neg h3, if_neg h4, if_neg h5, if_neg h6, if_neg h7,
    if_neg h8, if_neg h9]

theorem applyEvent_progressInv (s : AppState) (ev : Event)
    (hwf : payloadProgressWF ev.data) (h : ProgressInv s) :
    ProgressInv (applyEvent s ev) := by
  obtain ⟨t, d⟩ := ev
  by_cases h1 : t = "metadata"
  · subst h1
    rcases d with _ | (dm | dm | dm | dm)
    · exact h
    · exact hwf
    · exact h
    · exact h
    · exact h
  by_cases h2 : t = "playing"
  · subst h2; exact h
  by_cases h3 : t = "paused"
  · subst h3; exact h
  by_cases h4 : t = "stopped"
  · subst h4; exact h
  by_cases h5 : t = "seek"
  · subst h5
    rcases d with _ | (dm | dm | dm | dm)
    · exact h
    · exact h
    · exact hwf
    · exact h
    · exact h
  by_cases h6 : t = "volume"
  · subst h6
    rcases d with _ | (dm | dm | dm | dm) <;> exact h
  by_cases h7 : t = "shuffle_context"
  · subst h7
    rcases d with _ | (dm | dm | dm | dm) <;> exact h
  by_cases h8 : t = "repeat_context"
  · subst h8
    rcases d with _ | (dm | dm | dm | ⟨bv⟩)
    · exact h
    · exact h
    · exact h
    · exact h
    · rw [applyEvent_repeatCtx]
      split_ifs <;> exact h
  by_cases h9 : t = "repeat_track"
  · subst h9
    rcases d with _ | (dm | dm | dm | ⟨bv⟩)
    · exact h
    · exact h
    · exact h
    · exact h
    · rw [applyEvent_repeatTrk]
      split_ifs <;> exact h
  rw [applyEvent_unknownType s t d (by simp [knownEventTypes, h1, h2, h3, h4, h5, h6, h7, h8, h9])]
  exact h

theorem tickState_progressInv (s : AppState) (h : ProgressInv s) :
    ProgressInv (tickState s) := by
  simp only [ProgressInv] at h
  simp only [ProgressInv, tickState]
  split_ifs with hplay hover
  · show 0 ≤ s.duration ∧ s.duration ≤ s.duration
    omega
  · show 0 ≤ s.progress + 1000 ∧ s.progress + 1000 ≤ s.duration
    omega
  · exact h

theorem handleKey_progress_duration (k : List Nat) (s : AppState) :
    ((handleKey k s).1).progress = s.progress ∧
      ((handleKey k s).1).duration = s.duration := by
  simp only [handleKey, cycleRepeat]
  by_cases h1 : k = [113] ∨ k = [3]
  · rw [if_pos h1]; exact ⟨rfl, rfl⟩
  rw [if_neg h1]
  by_cases h2 : k = [32]
  · rw [if_pos h2]; exact ⟨rfl, rfl⟩
  rw [if_neg h2]
  by_cases h3 : k = [108] ∨ k = [27, 91, 67]
  · rw [if_pos h3]; exact ⟨rfl, rfl⟩
  rw [if_neg h3]
  by_cases h4 : k = [104] ∨ k = [27, 91, 68]
  · rw [if_pos h4]; exact ⟨rfl, rfl⟩
  rw [if_neg h4]
  by_cases h5 : k = [107] ∨ k = [27, 91, 65]
  · rw [if_pos h5]; exact ⟨rfl, rfl⟩
  rw [if_neg h5]
  by_cases h6 : k = [106] ∨ k = [27, 91, 66]
  · rw [if_pos h6]; exact ⟨rfl, rfl⟩
  rw [if_neg h6]
  by_cases h7 : k = [115]
  · rw [if_pos h7]; exact ⟨rfl, rfl⟩
  rw [if_neg h7]
  by_cases h8 : k = [114]
  · rw [if_pos h8]
    split_ifs <;> exact ⟨rfl, rfl⟩
  rw [if_neg h8]
  exact ⟨rfl, rfl⟩

theorem applyEvent_volumeInv (s : AppState) (ev : Event)
    (hwf : payloadVolumeWF ev.data) (h : VolumeInv s) :
    VolumeInv (applyEvent s ev) := by
  obtain ⟨t, d⟩ := ev
  by_cases h1 : t = "metadata"
  · subst h1
    rcases d with _ | (dm | dm | dm | dm) <;> exact h
  by_cases h2 : t = "playing"
  · subst h2; exact h
  by_cases h3 : t = "paused"
  · subst h3; exact h
  by_cases h4 : t = "stopped"
  · subst h4; exact h
  by_cases h5 : t = "seek"
  · subst h5
    rcases d with _ | (dm | dm | dm | dm) <;> exact h
  by_cases h6 : t = "volume"
  · subst h6
    rcases d with _ | (dm | dm | dm | dm)
    · exact h
    · exact h
    · exact h
    · exact hwf
    · exact h
  by_cases h7 : t = "shuffle_context"
  · subst h7
    rcases d with _ | (dm | dm | dm | dm) <;> exact h
  by_cases h8 : t = "repeat_context"
  · subst h8
    rcases d with _ | (dm | dm | dm | ⟨bv⟩)
    · exact h
    · exact h
    · exact h
    · exact h
    · rw [applyEvent_repeatCtx]
      split_ifs <;> exact h
  by_cases h9 : t = "repeat_track"
  · subst h9
    rcases d with _ | (dm | dm | dm | ⟨bv⟩)
    · exact h
    · exact h
    · exact h
    · exact h
    · rw [applyEvent_repeatTrk]
      split_ifs <;> exact h
  rw [applyEvent_unknownType s t d
    (by simp [knownEventTypes, h1, h2, h3, h4, h5, h6, h7, h8, h9])]
  exact h

theorem tickState_volume (s : AppState) : (tickState s).volume = s.volume := by
  simp only [tickState]
  split_ifs <;> rfl

theorem handleKey_volumeInv (k : List Nat) (s : AppState) (h : VolumeInv s) :
    VolumeInv ((handleKey k s).1) := by
  simp only [VolumeInv] at h
  simp only [VolumeInv, handleKey, cycleRepeat]
  by_cases h1 : k = [113] ∨ k = [3]
  · rw [if_pos h1]; exact h
  rw [if_neg h1]
  by_cases h2 : k = [32]
  · rw [if_pos h2]; exact h
  rw [if_neg h2]
  by_cases h3 : k = [108] ∨ k = [27, 91, 67]
  · rw [if_pos h3]; exact h
  rw [if_neg h3]
  by_cases h4 : k = [104] ∨ k = [27, 91, 68]
  · rw [if_pos h4]; exact h
  rw [if_neg h4]
  by_cases h5 : k = [107] ∨ k = [27, 91, 65]
  · rw [if_pos h5]
    show 0 ≤ min 100 (s.volume + 5) ∧ min 100 (s.volume + 5) ≤ 100
    omega
  rw [if_neg h5]
  by_cases h6 : k = [106] ∨ k = [27, 91, 66]
  · rw [if_pos h6]
    show 0 ≤ max 0 (s.volume - 5) ∧ max 0 (s.volume - 5) ≤ 100
    omega
  rw [if_neg h6]
  by_cases h7 : k = [115]
  · rw [if_pos h7]; exact h
  rw [if_neg h7]
  by_cases h8 : k = [114]
  · rw [if_pos h8]
    split_ifs <;> exact h
  rw [if_neg h8]
  exact h

theorem applyStatus_progress (s : AppState) (st : Status) :
    (applyStatus s st).progress = s.progress := by
  cases htr : st.track <;> simp [applyStatus, htr]

theorem applyStatus_duration (s : AppState) (st : Status) :
    (applyStatus s st).duration =
      (match st.track with
       | some t => t.duration
       | none => s.duration) := by
  cases htr : st.track <;> simp [applyStatus, htr]

theorem applyStatus_volume (s : AppState) (st : Status) :
    (applyStatus s st).volume = st.volume := by
  cases htr : st.track <;> simp [applyStatus, htr]

theorem step_progressInv (s : AppState) (it : Item)
    (hwf : itemProgressWF it) (h : ProgressInv s) : ProgressInv (step s it) := by
  cases it with
  | ev e => exact applyEvent_progressInv s e hwf h
  | tick => exact tickState_progressInv s h
  | key k =>
      have hp := handleKey_progress_duration k s
      simp only [ProgressInv] at h
      simp only [ProgressInv, step]
      rw [hp.1, hp.2]
      exact h

theorem step_volumeInv (s : AppState) (it : Item)
    (hwf : itemVolumeWF it) (h : VolumeInv s) : VolumeInv (step s it) := by
  cases it with
  | ev e => exact applyEvent_volumeInv s e hwf h
  | tick =>
      simp only [VolumeInv] at h
      simp only [VolumeInv, step]
      rw [tickState_volume]
      exact h
  | key k => exact handleKey_volumeInv k s h

theorem foldl_step_inv (P : AppState → Prop) (W : Item → Prop)
    (hstep : ∀ s it, W it → P s → P (step s it)) :
    ∀ (items : List Item) (s : AppState), P s → (∀ it ∈ items, W it) →
      P (items.foldl step s) := by
  intro items
  induction items with
  | nil => intro s hs _; simpa using hs
  | cons it rest ih =>
      intro s hs hw
      simp only [List.foldl_cons]
      exact ih _ (hstep s it (hw it (List.mem_cons_self it rest)) hs)
        (fun x hx => hw x (List.mem_cons_of_mem it hx))

theorem seedState_progressInv (st : Option Status)
    (hst : ∀ s, st = some s → statusProgressWF s) : ProgressInv (seedState st) := by
  cases st with
  | none => exact ⟨le_refl 0, le_refl 0⟩
  | some s =>
      cases htr : s.track with
      | none =>
          simp only [ProgressInv, seedState]
          simp [applyStatus, htr, initialState]
      | some tr =>
          have hb := hst s rfl tr htr
          simp only [ProgressInv, seedState]
          simp [applyStatus, htr, initialState]
          exact hb

theorem seedState_volumeInv (st : Option Status)
    (hst : ∀ s, st = some s → statusVolumeWF s) : VolumeInv (seedState st) := by
  cases st with
  | none => exact ⟨le_refl 0, by decide⟩
  | some s =>
      have hv := hst s rfl
      simp only [VolumeInv, seedState]
      rw [applyStatus_volume]
      exact hv

/-- C1 (amended): after seeding from a status whose track duration is
nonnegative and applying any sequence of events, ticks and key presses
whose metadata/seek payloads report positions within their durations, the
state satisfies 0 ≤ progress ≤ totalDuration. (The bound is guaranteed
only under those hypotheses because metadata/seek writes are copied
unclamped; only the tick write is clamped.) -/
theorem progress_always_in_bounds (st : Option Status) (items : List Item)
    (hst : ∀ s, st = some s → statusProgressWF s)
    (hwf : ∀ it ∈ items, itemProgressWF it) :
    0 ≤ (run st items).progress ∧ (run st items).progress ≤ (run st items).duration :=
  foldl_step_inv ProgressInv itemProgressWF step_progressInv items (seedState st)
    (seedState_progressInv st hst) hwf

/-- C1 witness: the theorem applied at a concrete seed and item list. -/
theorem progress_always_in_bounds_witness :
    0 ≤ (run none [Item.tick]).progress ∧
      (run none [Item.tick]).progress ≤ (run none [Item.tick]).duration :=
  progress_always_in_bounds none [Item.tick] (fun s h => nomatch h)
    (fun it hit => by rw [List.mem_singleton] at hit; subst hit; exact trivial)

/-- C1 counterexample: a seek event reporting position 300000 ms with
duration 200000 ms is written to the state unclamped, so the resulting
state violates progress ≤ totalDuration — applyEvent performs no clamping
on seek (or metadata) writes, contrary to the claim. -/
theorem progress_bound_violated_by_unclamped_seek :
    (applyEvent initialState ⟨"seek", some (.seek ⟨300000, 200000⟩)⟩).progress = 300000 ∧
    (applyEvent initialState ⟨"seek", some (.seek ⟨300000, 200000⟩)⟩).duration = 200000 ∧
    ¬ ((applyEvent initialState ⟨"seek", some (.seek ⟨300000, 200000⟩)⟩).progress ≤
        (applyEvent initialState ⟨"seek", some (.seek ⟨300000, 200000⟩)⟩).duration) := by
  decide

/-- C2 (amended): applyStatus replaces the playback flags, shuffle,
volume and repeat mode from the status, replaces the track-metadata
fields only when the status carries a track, and never writes progress.
(In `run`, applyStatus occurs only in the seeding position, mirroring
that `main` invokes it exactly once, before the event loop.) -/
theorem applyStatus_replaces_all_but_progress (s : AppState) (st : Status) :
    (applyStatus s st).progress = s.progress ∧
    (applyStatus s st).isPlaying = (!st.paused && !st.stopped) ∧
    (applyStatus s st).stopped = st.stopped ∧
    (applyStatus s st).shuffle = st.shuffleContext ∧
    (applyStatus s st).volume = st.volume ∧
    (applyStatus s st).repeatMode =
      (if st.repeatTrack then "track"
       else if st.repeatContext then "context" else "off") ∧
    (∀ t, st.track = some t →
      (applyStatus s st).trackName = t.name ∧
      (applyStatus s st).artistNames = joinStrings t.artistNames ∧
      (applyStatus s st).albumName = t.albumName ∧
      (applyStatus s st).duration = t.duration) ∧
    (st.track = none →
      (applyStatus s st).trackName = s.trackName ∧
      (applyStatus s st).artistNames = s.artistNames ∧
      (applyStatus s st).albumName = s.albumName ∧
      (applyStatus s st).duration = s.duration) := by
  cases htr : st.track <;> simp [applyStatus, htr]

/-- C2 witness: the theorem applied at a concrete state and status. -/
theorem applyStatus_replaces_all_but_progress_witness :
    lateStatus.track = some lateTrack ∧
    (applyStatus establishedState lateStatus).trackName = lateTrack.name ∧
    (applyStatus establishedState lateStatus).artistNames = joinStrings lateTrack.artistNames ∧
    (applyStatus establishedState lateStatus).albumName = lateTrack.albumName ∧
    (applyStatus establishedState lateStatus).duration = lateTrack.duration :=
  ⟨rfl, (applyStatus_replaces_all_but_progress establishedState
    lateStatus).2.2.2.2.2.2.1 lateTrack rfl⟩

/-- C2 counterexample: a snapshot applied to a state whose track is
already established both fails to replace every field (progress keeps its
old value 5000 — the status does not even carry a progress field) and is
not rejected (the state is modified). -/
theorem late_snapshot_not_wholesale_and_not_rejected :
    establishedState.trackName ≠ "" ∧
    (applyStatus establishedState lateStatus).progress = 5000 ∧
    applyStatus establishedState lateStatus ≠ establishedState := by
  decide

/-- C4 (amended): volume-delta key presses are clamped to [0,100], and
the volume stays in [0,100] along any run provided the seeding status and
every volume event report a value already in [0,100]; the VolumeSet event
write itself (and the snapshot write) is copied unclamped. -/
theorem volume_always_in_bounds (st : Option Status) (items : List Item)
    (hst : ∀ s, st = some s → statusVolumeWF s)
    (hwf : ∀ it ∈ items, itemVolumeWF it) :
    (0 ≤ (run st items).volume ∧ (run st items).volume ≤ 100) ∧
    (∀ s : AppState,
      ((handleKey [107] s).1).volume = min 100 (s.volume + 5) ∧
      ((handleKey [106] s).1).volume = max 0 (s.volume - 5)) := by
  constructor
  · exact foldl_step_inv VolumeInv itemVolumeWF step_volumeInv items (seedState st)
      (seedState_volumeInv st hst) hwf
  · intro s
    exact ⟨rfl, rfl⟩

/-- C4 witness: the theorem applied at a concrete seed and item list. -/
theorem volume_always_in_bounds_witness :
    ((0 ≤ (run none [Item.key [107]]).volume ∧ (run none [Item.key [107]]).volume ≤ 100) ∧
      (((handleKey [107] initialState).1).volume = min 100 (initialState.volume + 5) ∧
        ((handleKey [106] initialState).1).volume = max 0 (initialState.volume - 5))) := by
  have h := volume_always_in_bounds none [Item.key [107]] (fun s h => nomatch h)
    (fun it hit => by rw [List.mem_singleton] at hit; subst hit; exact trivial)
  exact ⟨h.1, h.2 initialState⟩

/-- C4 counterexample: a volume event reporting 150 is copied into the
state unclamped, so the resulting volume is outside [0,100], contrary to
the claim that every write of the volume field lands in [0,100]. -/
theorem volume_bound_violated_by_unclamped_volume_event :
    (applyEvent initialState ⟨"volume", some (.volume ⟨150, 100⟩)⟩).volume = 150 ∧
    ¬ ((applyEvent initialState ⟨"volume", some (.volume ⟨150, 100⟩)⟩).volume ≤ 100) := by
  decide

theorem tickState_min (s : AppState) (h1 : s.isPlaying = true) (h2 : s.stopped = false) :
    tickState s = { s with progress := min (s.progress + 1000) s.duration } := by
  obtain ⟨tn, an, al, du, pr, ip, sh, rm, vo, sp⟩ := s
  dsimp only at h1 h2
  subst h1; subst h2
  simp only [tickState]
  rw [if_pos (show ((true : Bool) && !false) = true from rfl)]
  simp only [AppState.mk.injEq, and_true, true_and]
  split_ifs <;> omega

theorem tickState_not_playing (s : AppState) (h : s.isPlaying = false ∨ s.stopped = true) :
    tickState s = s := by
  have hc : ¬ ((s.isPlaying && !s.stopped) = true) := by
    rcases h with h | h <;> simp [h]
  simp only [tickState]
  rw [if_neg hc]

/-- C5: a tick advances progress by exactly one 1000 ms unit clamped to
totalDuration when isPlaying ∧ ¬stopped, and leaves the state unchanged
whenever isPlaying is false or stopped is true. -/
theorem tick_advances_only_when_playing (s : AppState) :
    (s.isPlaying = true ∧ s.stopped = false →
      tickState s = { s with progress := min (s.progress + 1000) s.duration }) ∧
    (s.isPlaying = false ∨ s.stopped = true → tickState s = s) :=
  ⟨fun h => tickState_min s h.1 h.2, fun h => tickState_not_playing s h⟩

/-- C5 witness: the theorem applied at a playing and at a paused state. -/
theorem tick_advances_only_when_playing_witness :
    ((playingState.isPlaying = true ∧ playingState.stopped = false) ∧
      tickState playingState =
        { playingState with progress := min (playingState.progress + 1000) playingState.duration }) ∧
    ((initialState.isPlaying = false ∨ initialState.stopped = true) ∧
      tickState initialState = initialState) :=
  ⟨⟨⟨rfl, rfl⟩, (tick_advances_only_when_playing playingState).1 ⟨rfl, rfl⟩⟩,
   ⟨Or.inl rfl, (tick_advances_only_when_playing initialState).2 (Or.inl rfl)⟩⟩

/-- C6: repeat_context(true) sets repeatMode to "context" and
repeat_track(true) sets it to "track"; a false value resets to "off" only
when the view is currently in that mode and is a no-op otherwise; and
from "off", repeat_context(true) then repeat_track(true) yields "track". -/
theorem repeat_event_semantics (s : AppState) :
    (applyEvent s (repeatCtxEv true)).repeatMode = "context" ∧
    (applyEvent s (repeatTrkEv true)).repeatMode = "track" ∧
    (s.repeatMode = "context" → (applyEvent s (repeatCtxEv false)).repeatMode = "off") ∧
    (s.repeatMode ≠ "context" → (applyEvent s (repeatCtxEv false)).repeatMode = s.repeatMode) ∧
    (s.repeatMode = "track" → (applyEvent s (repeatTrkEv false)).repeatMode = "off") ∧
    (s.repeatMode ≠ "track" → (applyEvent s (repeatTrkEv false)).repeatMode = s.repeatMode) ∧
    (s.repeatMode = "off" →
      (applyEvent (applyEvent s (repeatCtxEv true)) (repeatTrkEv true)).repeatMode = "track") := by
  refine ⟨rfl, rfl, ?_, ?_, ?_, ?_, fun _ => rfl⟩
  · intro h
    rw [show repeatCtxEv false = ⟨"repeat_context", some (.boolVal ⟨false⟩)⟩ from rfl,
      applyEvent_repeatCtx]
    simp [h]
  · intro h
    rw [show repeatCtxEv false = ⟨"repeat_context", some (.boolVal ⟨false⟩)⟩ from rfl,
      applyEvent_repeatCtx]
    simp [h]
  · intro h
    rw [show repeatTrkEv false = ⟨"repeat_track", some (.boolVal ⟨false⟩)⟩ from rfl,
      applyEvent_repeatTrk]
    simp [h]
  · intro h
    rw [show repeatTrkEv false = ⟨"repeat_track", some (.boolVal ⟨false⟩)⟩ from rfl,
      applyEvent_repeatTrk]
    simp [h]

/-- C6 witness: the theorem applied at concrete states in each mode. -/
theorem repeat_event_semantics_witness :
    (applyEvent { initialState with repeatMode := "context" } (repeatCtxEv false)).repeatMode = "off" ∧
    (applyEvent { initialState with repeatMode := "track" } (repeatCtxEv false)).repeatMode = "track" ∧
    (applyEvent { initialState with repeatMode := "track" } (repeatTrkEv false)).repeatMode = "off" ∧
    (applyEvent (applyEvent initialState (repeatCtxEv true)) (repeatTrkEv true)).repeatMode = "track" :=
  ⟨(repeat_event_semantics _).2.2.1 rfl,
   (repeat_event_semantics { initialState with repeatMode := "track" }).2.2.2.1 (by decide),
   (repeat_event_semantics _).2.2.2.2.1 rfl,
   (repeat_event_semantics initialState).2.2.2.2.2.2 rfl⟩

/-- C7: the space key flips isPlaying immediately and does not quit
(the outbound request's outcome is discarded by the code, so the flip is
unconditional), and a subsequent authoritative "paused" event forces
isPlaying = false from any state, whatever the flip's direction. -/
theorem toggle_play_pause_then_paused (s s2 : AppState) (d : Option EventData) :
    ((handleKey [32] s).1).isPlaying = !s.isPlaying ∧
    (handleKey [32] s).2 = false ∧
    (applyEvent s2 ⟨"paused", d⟩).isPlaying = false ∧
    (applyEvent ((handleKey [32] s).1) ⟨"paused", d⟩).isPlaying = false :=
  ⟨rfl, rfl, rfl, rfl⟩

/-- C9: cycleRepeat applied three times to a state in repeat mode "off"
returns the repeat mode to "off" (off → context → track → off). -/
theorem cycle_repeat_three_times_off (s : AppState) (h : s.repeatMode = "off") :
    (cycleRepeat (cycleRepeat (cycleRepeat s))).repeatMode = "off" := by
  simp [cycleRepeat, h]

/-- C9 witness: the theorem applied at the initial state. -/
theorem cycle_repeat_three_times_off_witness :
    initialState.repeatMode = "off" ∧
    (cycleRepeat (cycleRepeat (cycleRepeat initialState))).repeatMode = "off" :=
  ⟨rfl, cycle_repeat_three_times_off initialState rfl⟩

/-- C8 (amended): a seek event sets progress and totalDuration directly
to the reported values in every state, overwriting any extrapolation; and
SeekTo(90000 ms, 200000 ms) followed by two 1000 ms ticks yields
progress = 92000 ms provided the state is playing and not stopped (ticks
are no-ops otherwise, leaving progress at 90000 ms). -/
theorem seek_sets_progress_directly (s : AppState) (p d : Int) :
    (applyEvent s (seekEv p d)).progress = p ∧
    (applyEvent s (seekEv p d)).duration = d ∧
    (s.isPlaying = true → s.stopped = false →
      (tickState (tickState (applyEvent s (seekEv 90000 200000)))).progress = 92000) := by
  refine ⟨rfl, rfl, ?_⟩
  intro h1 h2
  obtain ⟨tn, an, al, du, pr, ip, sh, rm, vo, sp⟩ := s
  dsimp only at h1 h2
  subst h1; subst h2
  rfl

/-- C8 witness: the theorem applied at a concrete playing state. -/
theorem seek_sets_progress_directly_witness :
    (playingState.isPlaying = true ∧ playingState.stopped = false) ∧
    (applyEvent playingState (seekEv 90000 200000)).progress = 90000 ∧
    (tickState (tickState (applyEvent playingState (seekEv 90000 200000)))).progress = 92000 :=
  ⟨⟨rfl, rfl⟩, (seek_sets_progress_directly playingState 90000 200000).1,
   (seek_sets_progress_directly playingState 90000 200000).2.2 rfl rfl⟩

/-- C8 counterexample: from the initial (non-playing) state, SeekTo
followed by two ticks leaves progress at 90000 ms, not 92000 ms — the
claim's "for every state" scenario fails when the state is not playing,
because ticks only advance while isPlaying ∧ ¬stopped. -/
theorem seek_then_ticks_stalls_when_paused :
    initialState.isPlaying = false ∧
    (tickState (tickState (applyEvent initialState (seekEv 90000 200000)))).progress = 90000 ∧
    ¬ ((tickState (tickState (applyEvent initialState (seekEv 90000 200000)))).progress = 92000) := by
  decide

/-- C10: a push message with an unknown type string leaves the state
unchanged; a message of a payload-carrying type whose payload does not
decode leaves the state unchanged; and a stream frame that fails to
decode as an Event at all is dropped by the reader loop, the remaining
frames being processed exactly as if it had never arrived. -/
theorem malformed_messages_are_dropped :
    (∀ (s : AppState) (ev : Event), ev.type ∉ knownEventTypes → applyEvent s ev = s) ∧
    (∀ (s : AppState) (t : String), t ∈ payloadEventTypes →
      applyEvent s ⟨t, none⟩ = s) ∧
    (∀ (s : AppState) (pre post : List (Option Event)),
      (readFrames (pre ++ none :: post)).foldl applyEvent s =
        (readFrames (pre ++ post)).foldl applyEvent s) := by
  refine ⟨?_, ?_, ?_⟩
  · intro s ev h
    obtain ⟨t, d⟩ := ev
    exact applyEvent_unknownType s t d h
  · intro s t ht
    simp only [payloadEventTypes, List.mem_cons, List.not_mem_nil, or_false] at ht
    rcases ht with rfl | rfl | rfl | rfl | rfl | rfl <;> rfl
  · intro s pre post
    simp [readFrames, List.filterMap_append]

/-- C10 witness: the theorem applied at an unknown event type and at a
known type with an undecodable payload. -/
theorem malformed_messages_are_dropped_witness :
    applyEvent initialState ⟨"lyrics", none⟩ = initialState ∧
    applyEvent initialState ⟨"seek", none⟩ = initialState :=
  ⟨malformed_messages_are_dropped.1 initialState ⟨"lyrics", none⟩ (by decide),
   malformed_messages_are_dropped.2.1 initialState "seek" (by decide)⟩

/-- C3 (code bug): at current = total (duration 200000 ms, width 50 — the
state the tick clamp steers every finishing track into), filled computes
to 50, the second repeat count is 50 - 50 - 1 = -1, and strings.Repeat
panics on the negative count, so CreateProgressBar is not total: the Go
program crashes instead of returning a bar string. -/
theorem progress_bar_panics_at_full_progress :
    Int.tdiv (50 * 200000) 200000 = 50 ∧
    stringRepeat "─" (50 - 50 - 1) = none ∧
    createProgressBar 200000 200000 50 = none := by
  decide

end SpotifyCLI
